import Mathlib

/-
Verification development for the content-fetch core of firecrawl-simple:
the binary/PDF classifier `isPDFContent` and the two fetch backends
`scrapeWithFetch` (direct HTTP GET) and `scrapeWithPlaywright` (browser
microservice POST), shallowly embedded from the TypeScript source.

Modelling conventions:
- JavaScript dynamic values that flow into the classifier and the result
  `content` field are modelled by `JSVal` (null, undefined, string, number,
  boolean are the shapes that matter here).
- Effectful external calls (axios GET/POST, the request-parameter provider
  `generateRequestParams`, `JSON.parse` of the microservice envelope) are
  modelled as explicit inputs describing their outcome; the functions under
  verification are the pure mappings from those outcomes to the returned
  FetchResult, exactly as the TypeScript control flow dictates.
- The per-call log record (`logParams`) is write-only telemetry that never
  influences the returned value, so it is not part of the state modelled here.
- JS string length and the non-printable count are modelled on the sequence of
  characters of the string; the float comparison `nonPrintable/total > 0.1` is
  modelled exactly on naturals as `10 * nonPrintable > total`.
-/

/-- A JavaScript value, restricted to the shapes relevant to this code. -/
inductive JSVal where
  | vNull
  | vUndefined
  | vStr (s : String)
  | vNum (n : Int)
  | vBool (b : Bool)
deriving DecidableEq, Repr

/-- JS nullish coalescing `a ?? b`. -/
def nullishCoalesce (a b : JSVal) : JSVal :=
  match a with
  | .vNull => b
  | .vUndefined => b
  | v => v

/-- Whether a `JSVal` is a string (JS `typeof v === "string"`). -/
def isStringVal : JSVal → Bool
  | .vStr _ => true
  | _ => false

/-- The whitespace set removed by JavaScript `String.prototype.trim`
(WhiteSpace and LineTerminator code points). -/
def jsWhitespaceChar (c : Char) : Bool :=
  let n := c.toNat
  (0x09 ≤ n && n ≤ 0x0d) || n == 0x20 || n == 0xa0 || n == 0x1680 ||
  (0x2000 ≤ n && n ≤ 0x200a) || n == 0x2028 || n == 0x2029 ||
  n == 0x202f || n == 0x205f || n == 0x3000 || n == 0xfeff

/-- JavaScript `content.trim()` on the character sequence. -/
def jsTrim (l : List Char) : List Char :=
  ((l.dropWhile jsWhitespaceChar).reverse.dropWhile jsWhitespaceChar).reverse

/-- JavaScript `s.includes(pat)`: `pat` occurs contiguously in `s`. -/
def listContainsSub (pat : List Char) : List Char → Bool
  | [] => pat.isEmpty
  | c :: rest => pat.isPrefixOf (c :: rest) || listContainsSub pat rest

/-- The character class of the source regex
`[\x00-\x08\x0B\x0C\x0E-\x1F\x7F-\x9F]` (non-printable indicator chars). -/
def nonPrintableChar (c : Char) : Bool :=
  let n := c.toNat
  n ≤ 0x08 || n == 0x0b || n == 0x0c || (0x0e ≤ n && n ≤ 0x1f) ||
  (0x7f ≤ n && n ≤ 0x9f)

/-- The conjunction of the four `includes` checks of the source:
`obj`, `endobj`, `stream`, `endstream` all occur in the trimmed content. -/
def pdfMarkersPresent (trimmed : List Char) : Bool :=
  listContainsSub "obj".toList trimmed && listContainsSub "endobj".toList trimmed &&
  listContainsSub "stream".toList trimmed && listContainsSub "endstream".toList trimmed

/-- `isPDFContent` specialised to an actual string argument. Follows the
source line by line: the `!content` guard (an empty string is falsy), the
`%PDF-` signature on the trimmed content, the four-marker co-occurrence
check on the trimmed content, then the non-printable ratio heuristic gated
on length exceeding 100. -/
def isPDFString (content : String) : Bool :=
  if content = "" then false
  else if "%PDF-".toList.isPrefixOf (jsTrim content.toList) then true
  else if pdfMarkersPresent (jsTrim content.toList) then true
  else if content.toList.length > 100 ∧
      10 * (content.toList.filter nonPrintableChar).length > content.toList.length then true
  else false

/-- The classifier `isPDFContent` of the source on a JS value: the guard
`if (!content || typeof content !== "string") return false` sends every
non-string (and the falsy empty string, handled in `isPDFString`) to
`false`; a string is classified by the heuristics. -/
def isPDFContent : JSVal → Bool
  | .vStr s => isPDFString s
  | _ => false

/-- The unified result shape both backends return:
`{ content; pageStatusCode?; pageError? }`. `content` is kept as a `JSVal`
because the Playwright success path returns `data.content ?? ""`, which is a
string only when the envelope's `content` field was one. An absent or `null`
status or error field is `none`. -/
structure FetchResult where
  content : JSVal
  pageStatusCode : Option Nat
  pageError : Option String
deriving DecidableEq, Repr

/-- A thrown JavaScript error as the catch blocks inspect it: an optional
`code` property and a `message`. (`error.message || error` falls back to the
error object itself when the message is the empty string; the error's
description is modelled by `message`.) -/
structure JsError where
  code : Option String
  message : String
deriving DecidableEq, Repr

/-- The shared catch block of both backends: `ECONNABORTED` is a timeout and
maps to the fixed message, any other error maps to its own description; in
both cases `content` is the empty string and `pageStatusCode` is null. -/
def catchError (e : JsError) : FetchResult :=
  if e.code = some "ECONNABORTED" then
    { content := .vStr "", pageStatusCode := none, pageError := some "Request timed out" }
  else
    { content := .vStr "", pageStatusCode := none, pageError := some e.message }

/-- Outcome of the `axios.get` call in `scrapeWithFetch`: either a delivered
response (status, statusText, raw body text — `transformResponse` is the
identity, so the body is never auto-parsed) or a thrown transport error. -/
inductive GetOutcome where
  | response (status : Nat) (statusText : String) (body : String)
  | throws (e : JsError)
deriving DecidableEq, Repr

/-- `scrapeWithFetch` of the source as the pure mapping from the transport
outcome to the returned FetchResult: non-200 status is a failure carrying the
status and its statusText; a 200 body classified as PDF is rejected with the
fixed message; otherwise success with the body as content and a null
pageError; a thrown error goes through the catch block. -/
def scrapeWithFetch (get : GetOutcome) : FetchResult :=
  match get with
  | .throws e => catchError e
  | .response status statusText text =>
    if status ≠ 200 then
      { content := .vStr "", pageStatusCode := some status, pageError := some statusText }
    else if isPDFContent (.vStr text) then
      { content := .vStr "", pageStatusCode := some status,
        pageError := some "PDF content detected - not suitable for text extraction" }
    else
      { content := .vStr text, pageStatusCode := some status, pageError := none }

/-- The parsed microservice envelope `{content, pageStatusCode, pageError}`:
`content` is an arbitrary JSON value (`.vUndefined` when the field is absent),
the other two are numbers/strings or absent/null. -/
structure Envelope where
  content : JSVal
  pageStatusCode : Option Nat
  pageError : Option String
deriving DecidableEq, Repr

/-- What `JSON.parse(response.data)` did to the raw envelope text: threw (with
the parse error's message) or produced an envelope. -/
inductive ParseOutcome where
  | parseError (msg : String)
  | parsed (e : Envelope)
deriving DecidableEq, Repr

/-- Outcome of the `axios.post` call in `scrapeWithPlaywright`: a delivered
response with its status and its body (abstracted by what `JSON.parse` would
do to the raw text), or a thrown transport error. -/
inductive PostOutcome where
  | response (status : Nat) (body : ParseOutcome)
  | throws (e : JsError)
deriving DecidableEq, Repr

/-- Outcome of `await generateRequestParams(url)`: a thrown error (caught by
the outer catch of `scrapeWithPlaywright`, like any other throw inside the
`try`), or a returned object abstracted by `reqParams["params"]?.wait` —
`some w` when a numeric wait is present, `none` when `params` or `wait` is
absent or nullish. -/
inductive ProviderOutcome where
  | throws (e : JsError)
  | returns (wait : Option Nat)
deriving DecidableEq, Repr

/-- `scrapeWithPlaywright` of the source as the pure mapping from the
provider outcome and the transport outcome (a function of the effective wait,
since `wait_after_load` and the timeout `universalTimeout + waitParam` both
depend on it) to the returned FetchResult.
Control flow mirrors the source:
- a throw from `generateRequestParams` lands in the outer catch;
- `waitParam = reqParams["params"]?.wait ?? waitFor`;
- non-200 outer status: `response.data` is the raw unparsed text (the
  identity `transformResponse`), so the property reads
  `response.data?.pageStatusCode` and `response.data?.pageError` on that
  string are `undefined` whatever the body says — both fields come back
  absent;
- 200 outer status: `JSON.parse` failure maps to a null status and the parse
  error message; a parsed envelope whose `content` the classifier flags is
  rejected with the fixed PDF message, keeping the envelope status; otherwise
  success with `content ?? ""` and the envelope's status and error passed
  through unchanged;
- a thrown transport error goes through the catch block. -/
def scrapeWithPlaywright (waitFor : Nat) (provider : ProviderOutcome)
    (post : Nat → PostOutcome) : FetchResult :=
  match provider with
  | .throws e => catchError e
  | .returns w =>
    let waitParam := w.getD waitFor
    match post waitParam with
    | .throws e => catchError e
    | .response status body =>
      if status ≠ 200 then
        { content := .vStr "", pageStatusCode := none, pageError := none }
      else
        match body with
        | .parseError msg =>
          { content := .vStr "", pageStatusCode := none, pageError := some msg }
        | .parsed data =>
          if isPDFContent data.content then
            { content := .vStr "", pageStatusCode := data.pageStatusCode,
              pageError := some "PDF content detected - not suitable for text extraction" }
          else
            { content := nullishCoalesce data.content (.vStr ""),
              pageStatusCode := data.pageStatusCode, pageError := data.pageError }

/-- Side condition for the pass-through path of `scrapeWithPlaywright`:
every envelope the microservice can deliver pairs a non-200
`pageStatusCode` with a present `pageError`. -/
def envPairsStatusWithError (post : Nat → PostOutcome) : Prop :=
  ∀ (wait status : Nat) (env : Envelope),
    post wait = .response status (.parsed env) →
    ∀ c, env.pageStatusCode = some c → c ≠ 200 → env.pageError.isSome = true

/-- The success path of `scrapeWithFetch`: a 200 response whose body the
classifier does not flag. -/
def fetchSuccessPath : GetOutcome → Bool
  | .response status _ body => status == 200 && !(isPDFContent (.vStr body))
  | .throws _ => false

/-- The success path of `scrapeWithPlaywright`: the provider returns, the
POST delivers outer status 200, the envelope parses, and the classifier
does not flag its content. -/
def playwrightSuccessPath (waitFor : Nat) (provider : ProviderOutcome)
    (post : Nat → PostOutcome) : Bool :=
  match provider with
  | .throws _ => false
  | .returns w =>
    match post (w.getD waitFor) with
    | .response status (.parsed env) => status == 200 && !(isPDFContent env.content)
    | _ => false

theorem isPDFContent_vStr (s : String) : isPDFContent (.vStr s) = isPDFString s := rfl

theorem catchError_content (e : JsError) : (catchError e).content = .vStr "" := by
  unfold catchError; split <;> rfl

theorem catchError_pageStatusCode (e : JsError) :
    (catchError e).pageStatusCode = none := by
  unfold catchError; split <;> rfl

theorem catchError_pageError_isSome (e : JsError) :
    (catchError e).pageError.isSome = true := by
  unfold catchError; split <;> rfl

/-- C4 (amended): if the trimmed content contains all four markers `obj`,
`endobj`, `stream`, `endstream`, the classifier returns true. Conversely,
the absence of at least one marker yields false only when additionally the
trimmed content does not start with `%PDF-` and the non-printable-ratio
branch does not fire (length at most 100, or at most 10 percent
non-printable characters) — contrary to the claim, marker absence alone
does not force a false answer independently of the other heuristics. -/
theorem c4_marker_cooccurrence :
    (∀ s : String, pdfMarkersPresent (jsTrim s.toList) = true →
      isPDFContent (.vStr s) = true) ∧
    (∀ s : String,
      "%PDF-".toList.isPrefixOf (jsTrim s.toList) = false →
      (s.toList.length ≤ 100 ∨
        10 * (s.toList.filter nonPrintableChar).length ≤ s.toList.length) →
      pdfMarkersPresent (jsTrim s.toList) = false →
      isPDFContent (.vStr s) = false) := by
  constructor
  · intro s h
    by_cases hs : s = ""
    · rw [hs] at h
      exact absurd h (by decide)
    · rw [isPDFContent_vStr]
      unfold isPDFString
      rw [if_neg hs]
      split
      · rfl
      · simp [h]
  · intro s hpre hgate hmark
    by_cases hs : s = ""
    · rw [hs]; decide
    · rw [isPDFContent_vStr]
      unfold isPDFString
      rw [if_neg hs, hpre, hmark]
      simp only [Bool.false_eq_true, if_false]
      rw [if_neg]
      rcases hgate with h | h <;> omega

/-- C4 witness: a body containing all four markers is flagged as binary,
and a short marker-free plain string without a signature is not. -/
theorem c4_marker_cooccurrence_witness :
    isPDFContent (.vStr "1 0 obj stream data endstream endobj") = true ∧
    isPDFContent (.vStr "<html>hello</html>") = false :=
  ⟨c4_marker_cooccurrence.1 "1 0 obj stream data endstream endobj" (by decide),
   c4_marker_cooccurrence.2 "<html>hello</html>" (by decide)
     (Or.inl (by decide)) (by decide)⟩

/-- C4 counterexample: `"%PDF- obj endobj stream"` lacks the marker
`endstream` in its trimmed form, yet the classifier returns true (the
`%PDF-` signature branch fires first), refuting the claim that removing
one of the four markers makes the classifier return false. -/
theorem c4_counterexample :
    listContainsSub "endstream".toList (jsTrim "%PDF- obj endobj stream".toList) = false ∧
    isPDFContent (.vStr "%PDF- obj endobj stream") = true := by
  decide

/-- C7: a string of at most 100 characters whose trimmed form neither
starts with `%PDF-` nor contains all four PDF markers is classified as not
binary, whatever its ratio of non-printable characters: the ratio branch is
gated on length exceeding 100. -/
theorem c7_short_content_not_binary :
    ∀ s : String, s.toList.length ≤ 100 →
      "%PDF-".toList.isPrefixOf (jsTrim s.toList) = false →
      pdfMarkersPresent (jsTrim s.toList) = false →
      isPDFContent (.vStr s) = false := by
  intro s hlen hpre hmark
  by_cases hs : s = ""
  · rw [hs]; decide
  · rw [isPDFContent_vStr]
    unfold isPDFString
    rw [if_neg hs, hpre, hmark]
    simp only [Bool.false_eq_true, if_false]
    rw [if_neg]
    omega

/-- C7 witness: ten `\x01` bytes are 100 percent non-printable but the
string is short, has no `%PDF-` signature and no markers, so the
classifier answers false. -/
theorem c7_short_content_not_binary_witness :
    isPDFContent (.vStr "\x01\x01\x01\x01\x01\x01\x01\x01\x01\x01") = false :=
  c7_short_content_not_binary "\x01\x01\x01\x01\x01\x01\x01\x01\x01\x01"
    (by decide) (by decide) (by decide)

/-- C9: the classifier is a total function (the embedding never throws) and
sends every non-string JS value — in particular null and undefined — to
false. -/
theorem c9_nonstring_not_binary :
    ∀ v : JSVal, isStringVal v = false → isPDFContent v = false := by
  intro v h
  cases v <;> simp_all [isStringVal, isPDFContent]

/-- C9 witness: the classifier at the JS value null. -/
theorem c9_nonstring_not_binary_witness : isPDFContent .vNull = false :=
  c9_nonstring_not_binary .vNull rfl

/-- C2: when the GET delivers a status other than 200, `scrapeWithFetch`
fails with empty content, that status, and the transport's reason phrase as
the error. -/
theorem c2_fetch_non200_is_status_failure :
    ∀ (status : Nat) (statusText : String) (body : String), status ≠ 200 →
      scrapeWithFetch (.response status statusText body) =
        { content := .vStr "", pageStatusCode := some status,
          pageError := some statusText } := by
  intro status statusText body h
  simp [scrapeWithFetch, h]

/-- C2 witness: a 404 with reason phrase Not Found. -/
theorem c2_fetch_non200_is_status_failure_witness :
    scrapeWithFetch (.response 404 "Not Found" "<h1>gone</h1>") =
      { content := .vStr "", pageStatusCode := some 404,
        pageError := some "Not Found" } :=
  c2_fetch_non200_is_status_failure 404 "Not Found" "<h1>gone</h1>" (by decide)

/-- C6: for both backends a thrown transport error with code `ECONNABORTED`
yields empty content, an absent status, and the fixed message
`Request timed out`; any other thrown transport error yields empty content,
an absent status, and the error's own description. -/
theorem c6_timeout_vs_transport_error :
    (∀ e : JsError, e.code = some "ECONNABORTED" →
      scrapeWithFetch (.throws e) =
        { content := .vStr "", pageStatusCode := none,
          pageError := some "Request timed out" }) ∧
    (∀ e : JsError, e.code ≠ some "ECONNABORTED" →
      scrapeWithFetch (.throws e) =
        { content := .vStr "", pageStatusCode := none,
          pageError := some e.message }) ∧
    (∀ (waitFor : Nat) (w : Option Nat) (post : Nat → PostOutcome) (e : JsError),
      post (w.getD waitFor) = .throws e → e.code = some "ECONNABORTED" →
      scrapeWithPlaywright waitFor (.returns w) post =
        { content := .vStr "", pageStatusCode := none,
          pageError := some "Request timed out" }) ∧
    (∀ (waitFor : Nat) (w : Option Nat) (post : Nat → PostOutcome) (e : JsError),
      post (w.getD waitFor) = .throws e → e.code ≠ some "ECONNABORTED" →
      scrapeWithPlaywright waitFor (.returns w) post =
        { content := .vStr "", pageStatusCode := none,
          pageError := some e.message }) := by
  refine ⟨?_, ?_, ?_, ?_⟩
  · intro e h; simp [scrapeWithFetch, catchError, h]
  · intro e h; simp [scrapeWithFetch, catchError, h]
  · intro waitFor w post e hpost h
    simp [scrapeWithPlaywright, hpost, catchError, h]
  · intro waitFor w post e hpost h
    simp [scrapeWithPlaywright, hpost, catchError, h]

/-- C6 witness: a timed-out GET and a Playwright POST failing with a plain
socket error. -/
theorem c6_timeout_vs_transport_error_witness :
    scrapeWithFetch (.throws ⟨some "ECONNABORTED", "timeout of 15000ms exceeded"⟩) =
      { content := .vStr "", pageStatusCode := none,
        pageError := some "Request timed out" } ∧
    scrapeWithPlaywright 0 (.returns none) (fun _ => .throws ⟨none, "socket hang up"⟩) =
      { content := .vStr "", pageStatusCode := none,
        pageError := some "socket hang up" } :=
  ⟨c6_timeout_vs_transport_error.1 ⟨some "ECONNABORTED", "timeout of 15000ms exceeded"⟩ rfl,
   c6_timeout_vs_transport_error.2.2.2 0 none
     (fun _ => .throws ⟨none, "socket hang up"⟩) ⟨none, "socket hang up"⟩ rfl (by decide)⟩

/-- C8: evaluation of the embedded code at the failing input named by the
claim — outer status 500 while the body text parses to the envelope
`{content: "", pageStatusCode: 403, pageError: "Forbidden"}`. The code reads
`pageStatusCode` and `pageError` as properties of the unparsed body string,
which are undefined, so the envelope's 403 / Forbidden are not propagated:
both come back absent. -/
theorem c8_non200_drops_envelope_fields :
    scrapeWithPlaywright 0 (.returns none)
      (fun _ => .response 500 (.parsed ⟨.vStr "", some 403, some "Forbidden"⟩)) =
      { content := .vStr "", pageStatusCode := none, pageError := none } := by
  decide

/-- C10: when the outer status is 200 and the envelope parses but its
`content` field is null or absent, the success path is taken (the
classifier treats the missing content as not binary) and the returned
content is exactly the empty string, with the envelope's status and error
passed through. -/
theorem c10_null_content_becomes_empty_string :
    ∀ (waitFor : Nat) (w : Option Nat) (post : Nat → PostOutcome) (env : Envelope),
      post (w.getD waitFor) = .response 200 (.parsed env) →
      env.content = .vNull ∨ env.content = .vUndefined →
      scrapeWithPlaywright waitFor (.returns w) post =
        { content := .vStr "", pageStatusCode := env.pageStatusCode,
          pageError := env.pageError } := by
  intro waitFor w post env hpost hc
  rcases hc with h | h <;>
    simp [scrapeWithPlaywright, hpost, h, isPDFContent, nullishCoalesce]

/-- C10 witness: an envelope whose content field is null. -/
theorem c10_null_content_becomes_empty_string_witness :
    scrapeWithPlaywright 0 (.returns none)
      (fun _ => .response 200 (.parsed ⟨.vNull, some 200, none⟩)) =
      { content := .vStr "", pageStatusCode := some 200, pageError := none } :=
  c10_null_content_becomes_empty_string 0 none
    (fun _ => .response 200 (.parsed ⟨.vNull, some 200, none⟩))
    ⟨.vNull, some 200, none⟩ rfl (Or.inl rfl)

/-- C1 (amended): every result of `scrapeWithFetch` whose `pageStatusCode`
is present and not 200 carries a present `pageError`; for
`scrapeWithPlaywright` the same holds provided the parsed envelopes
themselves pair a non-200 `pageStatusCode` with a present `pageError` —
the success path passes both envelope fields through unchanged, so it
preserves that pairing but cannot establish it. -/
theorem c1_non200_pairs_with_error :
    (∀ (g : GetOutcome) (code : Nat),
      (scrapeWithFetch g).pageStatusCode = some code → code ≠ 200 →
      (scrapeWithFetch g).pageError.isSome = true) ∧
    (∀ (waitFor : Nat) (provider : ProviderOutcome) (post : Nat → PostOutcome),
      envPairsStatusWithError post →
      ∀ code : Nat,
        (scrapeWithPlaywright waitFor provider post).pageStatusCode = some code →
        code ≠ 200 →
        (scrapeWithPlaywright waitFor provider post).pageError.isSome = true) := by
  constructor
  · intro g code hcode hne
    cases g with
    | throws e =>
      rw [show scrapeWithFetch (.throws e) = catchError e from rfl] at hcode ⊢
      rw [catchError_pageStatusCode] at hcode
      exact absurd hcode (by simp)
    | response status statusText body =>
      by_cases h200 : status = 200
      · subst h200
        by_cases hpdf : isPDFContent (.vStr body) = true
        · simp [scrapeWithFetch, hpdf]
        · simp only [scrapeWithFetch, hpdf] at hcode
          simp at hcode
          omega
      · simp [scrapeWithFetch, h200]
  · intro waitFor provider post hinv code hcode hne
    cases provider with
    | throws e =>
      rw [show scrapeWithPlaywright waitFor (.throws e) post = catchError e from rfl]
        at hcode ⊢
      rw [catchError_pageStatusCode] at hcode
      exact absurd hcode (by simp)
    | returns w =>
      rcases hp : post (w.getD waitFor) with ⟨status, body⟩ | e
      · by_cases h200 : status = 200
        · subst h200
          cases body with
          | parseError msg =>
            simp [scrapeWithPlaywright, hp] at hcode
          | parsed env =>
            by_cases hpdf : isPDFContent env.content = true
            · simp [scrapeWithPlaywright, hp, hpdf]
            · simp only [scrapeWithPlaywright, hp] at hcode ⊢
              simp [hpdf] at hcode ⊢
              exact hinv (w.getD waitFor) 200 env hp code hcode hne
        · simp [scrapeWithPlaywright, hp, h200] at hcode
      · rw [show scrapeWithPlaywright waitFor (.returns w) post = catchError e by
            simp [scrapeWithPlaywright, hp]] at hcode ⊢
        rw [catchError_pageStatusCode] at hcode
        exact absurd hcode (by simp)

/-- C1 witness: the fetch backend at a 404 response, and the browser backend
at a PDF-rejected envelope carrying status 404, for a microservice whose
envelopes pair non-200 statuses with errors. -/
theorem c1_non200_pairs_with_error_witness :
    (scrapeWithFetch (.response 410 "Gone" "old")).pageError.isSome = true ∧
    (scrapeWithPlaywright 5 (.returns none)
      (fun _ => .response 200
        (.parsed ⟨.vStr "%PDF-1.4", some 404, some "soft error"⟩))).pageError.isSome
      = true :=
  ⟨c1_non200_pairs_with_error.1 (.response 410 "Gone" "old") 410 rfl (by decide),
   c1_non200_pairs_with_error.2 5 (.returns none)
     (fun _ => .response 200 (.parsed ⟨.vStr "%PDF-1.4", some 404, some "soft error"⟩))
     (by intro wait status env h c hc hne; cases h; rfl)
     404 (by decide) (by decide)⟩

/-- C1 counterexample: with outer status 200 and an envelope
`{content: "hi", pageStatusCode: 404}` with no `pageError`, the success
path of `scrapeWithPlaywright` returns a present non-200 `pageStatusCode`
with an absent `pageError`, refuting the claimed invariant. -/
theorem c1_non200_pairs_with_error_counterexample :
    (scrapeWithPlaywright 0 (.returns none)
      (fun _ => .response 200 (.parsed ⟨.vStr "hi", some 404, none⟩))).pageStatusCode
        = some 404 ∧
    (scrapeWithPlaywright 0 (.returns none)
      (fun _ => .response 200 (.parsed ⟨.vStr "hi", some 404, none⟩))).pageError
        = none := by
  decide

/-- C3 (amended): when the request-parameter provider returns without
supplying a wait value, the call behaves exactly as if the provider had
supplied the caller's `waitFor` — the fetch proceeds normally with the
caller-supplied wait. When the provider throws (with any code other than
the timeout code), the call does not proceed: it returns the failure
`{content: "", pageStatusCode: absent, pageError: the error's description}`
from the shared catch block. -/
theorem c3_wait_fallback_and_provider_throw :
    (∀ (waitFor : Nat) (post : Nat → PostOutcome),
      scrapeWithPlaywright waitFor (.returns none) post =
        scrapeWithPlaywright waitFor (.returns (some waitFor)) post) ∧
    (∀ (waitFor : Nat) (e : JsError) (post : Nat → PostOutcome),
      e.code ≠ some "ECONNABORTED" →
      scrapeWithPlaywright waitFor (.throws e) post =
        { content := .vStr "", pageStatusCode := none,
          pageError := some e.message }) := by
  constructor
  · intro waitFor post; rfl
  · intro waitFor e post h; simp [scrapeWithPlaywright, catchError, h]

/-- C3 witness: the fallback at `waitFor = 7` against a microservice that
answers successfully, and a provider that throws with message boom. -/
theorem c3_wait_fallback_and_provider_throw_witness :
    scrapeWithPlaywright 7 (.returns none)
      (fun _ => .response 200 (.parsed ⟨.vStr "ok", some 200, none⟩)) =
      scrapeWithPlaywright 7 (.returns (some 7))
        (fun _ => .response 200 (.parsed ⟨.vStr "ok", some 200, none⟩)) ∧
    scrapeWithPlaywright 7 (.throws ⟨some "ERR_FR_TOO_MANY_REDIRECTS", "boom"⟩)
      (fun _ => .response 200 (.parsed ⟨.vStr "ok", some 200, none⟩)) =
      { content := .vStr "", pageStatusCode := none, pageError := some "boom" } :=
  ⟨c3_wait_fallback_and_provider_throw.1 7
     (fun _ => .response 200 (.parsed ⟨.vStr "ok", some 200, none⟩)),
   c3_wait_fallback_and_provider_throw.2 7 ⟨some "ERR_FR_TOO_MANY_REDIRECTS", "boom"⟩
     (fun _ => .response 200 (.parsed ⟨.vStr "ok", some 200, none⟩)) (by decide)⟩

/-- C3 counterexample: a throwing provider does fail the fetch. With a
microservice that would deliver `<p>hi</p>` successfully, the call whose
provider throws returns the provider's error instead of proceeding with the
caller-supplied wait, which would have produced the success result shown in
the second conjunct. -/
theorem c3_wait_fallback_and_provider_throw_counterexample :
    scrapeWithPlaywright 0 (.throws ⟨none, "provider failed"⟩)
      (fun _ => .response 200 (.parsed ⟨.vStr "<p>hi</p>", some 200, none⟩)) =
      { content := .vStr "", pageStatusCode := none,
        pageError := some "provider failed" } ∧
    scrapeWithPlaywright 0 (.returns (some 0))
      (fun _ => .response 200 (.parsed ⟨.vStr "<p>hi</p>", some 200, none⟩)) =
      { content := .vStr "<p>hi</p>", pageStatusCode := some 200, pageError := none } := by
  decide

/-- C5: on every exit path of either backend other than the success path —
non-200 status, thrown transport error or timeout, envelope parse error,
binary-content rejection, provider throw — the returned content is the
empty string. -/
theorem c5_failures_yield_empty_content :
    (∀ g : GetOutcome, fetchSuccessPath g = false →
      (scrapeWithFetch g).content = .vStr "") ∧
    (∀ (waitFor : Nat) (provider : ProviderOutcome) (post : Nat → PostOutcome),
      playwrightSuccessPath waitFor provider post = false →
      (scrapeWithPlaywright waitFor provider post).content = .vStr "") := by
  constructor
  · intro g h
    cases g with
    | throws e => exact catchError_content e
    | response status statusText body =>
      by_cases h200 : status = 200
      · subst h200
        simp [fetchSuccessPath] at h
        simp [scrapeWithFetch, h]
      · simp [scrapeWithFetch, h200]
  · intro waitFor provider post h
    cases provider with
    | throws e => exact catchError_content e
    | returns w =>
      rcases hp : post (w.getD waitFor) with ⟨status, body⟩ | e
      · cases body with
        | parseError msg =>
          by_cases h200 : status = 200
          · subst h200; simp [scrapeWithPlaywright, hp]
          · simp [scrapeWithPlaywright, hp, h200]
        | parsed env =>
          by_cases h200 : status = 200
          · subst h200
            simp [playwrightSuccessPath, hp] at h
            simp [scrapeWithPlaywright, hp, h]
          · simp [scrapeWithPlaywright, hp, h200]
      · have : scrapeWithPlaywright waitFor (.returns w) post = catchError e := by
          simp [scrapeWithPlaywright, hp]
        rw [this]
        exact catchError_content e

/-- C5 witness: a 404 on the direct backend and a parse error on the
browser backend, both returning empty content. -/
theorem c5_failures_yield_empty_content_witness :
    (scrapeWithFetch (.response 404 "Not Found" "nope")).content = .vStr "" ∧
    (scrapeWithPlaywright 0 (.returns none)
      (fun _ => .response 200 (.parseError "Unexpected token < in JSON"))).content
      = .vStr "" :=
  ⟨c5_failures_yield_empty_content.1 (.response 404 "Not Found" "nope") (by decide),
   c5_failures_yield_empty_content.2 0 (.returns none)
     (fun _ => .response 200 (.parseError "Unexpected token < in JSON")) (by decide)⟩
